import Mathlib

/-!
Shallow embedding of the receipt normalization-and-persistence pipeline of
`src/database.py` (class `ReceiptDatabase`): the field parsers `parse_date`,
`parse_quantity`, `parse_price`, the get-or-create resolvers
`insert_or_get_merchant` / `insert_or_get_product`, and the transactional
ingestion `insert_receipt`.

Modelling choices:
- Python `None`-able values become `Option`; Python truthiness (`if not x`)
  is modelled explicitly (`None`/`""`/`0.0` are falsy).
- Decimal values (Python floats produced by `float` on digit-and-dot runs)
  are modelled as `ℚ`.  Arithmetic on them is written with `mkRat` /
  `Rat.divInt` (kernel-computable); `ratDiv_eq` bridges to `/` on `ℚ`.
- Strings are processed as their character lists with structural
  recursion, so that every parser evaluates by `decide`.
- The relational store is an explicit state (`DB`); every `cur.execute`
  consumes one tick of an error oracle `err : Nat → Bool` that says whether
  that storage operation raises `psycopg2.Error`.  A raised operation makes
  no state change.  `conn.commit` keeps the working state; `conn.rollback`
  restores the state from before the call's first operation.
-/

namespace ProductTruck

/-- Python truthiness of an optional string: `None` and `""` are falsy. -/
def strTruthy : Option String → Bool
  | none => false
  | some s => s ≠ ""

/-- Python truthiness of an optional numeric value: `None` and `0.0` are falsy. -/
def qTruthy : Option ℚ → Bool
  | none => false
  | some q => q ≠ 0

/-- Exact division on `ℚ` in a kernel-computable form
(`ratDiv_eq` shows it agrees with `/`). -/
def ratDiv (a b : ℚ) : ℚ := Rat.divInt (a.num * b.den) (a.den * b.num)

/-- Characters removed by Python `str.strip` (ASCII whitespace). -/
def pyWS (c : Char) : Bool :=
  c == ' ' || c == '\t' || c == '\n' || c == '\r' || c == '\x0b' || c == '\x0c'

/-- Model of Python `str.strip`: drop whitespace from both ends. -/
def pyStrip (cs : List Char) : List Char :=
  ((cs.dropWhile pyWS).reverse.dropWhile pyWS).reverse

/-- Split a character list on `'-'` (the separator of all four date formats). -/
def splitDash : List Char → List Char → List (List Char)
  | [], acc => [acc.reverse]
  | c :: cs, acc =>
    if c = '-' then acc.reverse :: splitDash cs []
    else splitDash cs (c :: acc)

/-- Value of a digit string. -/
def digitsVal (cs : List Char) : Nat :=
  cs.foldl (fun a c => a * 10 + (c.toNat - 48)) 0

/-- Nonempty and all decimal digits. -/
def allDigits (cs : List Char) : Bool := !cs.isEmpty && cs.all Char.isDigit

/-- Model of the `strptime` directive `%m`: one or two digits, value 1..12
(regex `1[0-2]|0[1-9]|[1-9]`). -/
def matchMonth (cs : List Char) : Option Nat :=
  if (cs.length = 1 ∨ cs.length = 2) ∧ allDigits cs then
    let v := digitsVal cs
    if 1 ≤ v ∧ v ≤ 12 then some v else none
  else none

/-- Model of the `strptime` directive `%d`: one or two digits, value 1..31
(regex `3[01]|[12]\d|0[1-9]|[1-9]`). -/
def matchDay (cs : List Char) : Option Nat :=
  if (cs.length = 1 ∨ cs.length = 2) ∧ allDigits cs then
    let v := digitsVal cs
    if 1 ≤ v ∧ v ≤ 31 then some v else none
  else none

/-- Model of the `strptime` directive `%Y`: exactly four digits. -/
def matchYear4 (cs : List Char) : Option Nat :=
  if cs.length = 4 ∧ allDigits cs then some (digitsVal cs) else none

/-- Model of the `strptime` directive `%y`: exactly two digits; Python maps
00-68 to 2000-2068 and 69-99 to 1969-1999. -/
def matchYear2 (cs : List Char) : Option Nat :=
  if cs.length = 2 ∧ allDigits cs then
    let v := digitsVal cs
    if v ≤ 68 then some (2000 + v) else some (1900 + v)
  else none

/-- Gregorian leap-year test, as in Python `datetime`. -/
def isLeap (y : Nat) : Bool := (y % 4 = 0 ∧ y % 100 ≠ 0) ∨ y % 400 = 0

/-- Days in a month, as validated by the Python `datetime` constructor. -/
def daysInMonth (y m : Nat) : Nat :=
  if m = 2 then (if isLeap y then 29 else 28)
  else if m = 4 ∨ m = 6 ∨ m = 9 ∨ m = 11 then 30 else 31

/-- The four hyphen-separated formats tried by `parse_date`, in source
order: `%m-%d-%Y`, `%m-%d-%y`, `%Y-%m-%d`, `%d-%m-%Y`. -/
inductive DateFmt | mdY | mdy | Ymd | dmY
deriving DecidableEq

/-- Model of `datetime.strptime(s, fmt)` for one of the four
hyphen-separated all-numeric formats, as a `(year, month, day)` triple;
`none` models the `ValueError` raised on a failed match or an invalid
calendar date (`datetime` also requires `1 ≤ year`). -/
def tryFormat (fmt : DateFmt) (cs : List Char) : Option (Nat × Nat × Nat) :=
  match splitDash cs [] with
  | [a, b, c] =>
    let ymd? : Option (Nat × Nat × Nat) :=
      match fmt with
      | .mdY => do
          let m ← matchMonth a; let d ← matchDay b; let y ← matchYear4 c
          pure (y, m, d)
      | .mdy => do
          let m ← matchMonth a; let d ← matchDay b; let y ← matchYear2 c
          pure (y, m, d)
      | .Ymd => do
          let y ← matchYear4 a; let m ← matchMonth b; let d ← matchDay c
          pure (y, m, d)
      | .dmY => do
          let d ← matchDay a; let m ← matchMonth b; let y ← matchYear4 c
          pure (y, m, d)
    match ymd? with
    | some (y, m, d) =>
        if 1 ≤ y ∧ d ≤ daysInMonth y m then some (y, m, d) else none
    | none => none
  | _ => none

/-- Zero-padding to two digits, as in `strftime` `%m` and `%d`. -/
def pad2 (n : Nat) : String := if n < 10 then "0" ++ toString n else toString n

/-- Render a parsed date in the canonical `%Y-%m-%d` form. -/
def renderISO : Nat × Nat × Nat → String
  | (y, m, d) => toString y ++ "-" ++ pad2 m ++ "-" ++ pad2 d

/-- Model of `ReceiptDatabase.parse_date`: convert a date string to
`YYYY-MM-DD` by trying `%m-%d-%Y`, `%m-%d-%y`, `%Y-%m-%d`, `%d-%m-%Y` in
order on the stripped input; `none` for falsy input or when no format
matches. -/
def parse_date (date_str : Option String) : Option String :=
  match date_str with
  | none => none
  | some s =>
    if s = "" then none
    else
      match [DateFmt.mdY, DateFmt.mdy, DateFmt.Ymd, DateFmt.dmY].findSome?
          (fun fmt => tryFormat fmt (pyStrip s.data)) with
      | some ymd => some (renderISO ymd)
      | none => none

/-- A character matched by the numeric-run regex `[\d.]+`. -/
def isNumChar (c : Char) : Bool := c.isDigit || c == '.'

/-- Model of `re.search(r'[\d.]+', s)`: the first maximal run of digits
and dots. -/
def firstNumRun : List Char → Option (List Char)
  | [] => none
  | c :: cs =>
    if isNumChar c then some (c :: cs.takeWhile isNumChar)
    else firstNumRun cs

/-- Model of Python `float` applied to a nonempty run of digits and dots:
succeeds exactly when the run contains at most one dot and at least one
digit; `none` models the `ValueError` raised otherwise (e.g. on `"..."`). -/
def pyFloatRun (cs : List Char) : Option ℚ :=
  match cs.count '.' with
  | 0 => if cs.isEmpty then none else some (mkRat (digitsVal cs) 1)
  | 1 =>
    let ip := cs.takeWhile (fun c => c ≠ '.')
    let fp := (cs.dropWhile (fun c => c ≠ '.')).drop 1
    if ip.isEmpty ∧ fp.isEmpty then none
    else some (mkRat (digitsVal ip * 10 ^ fp.length + digitsVal fp) (10 ^ fp.length))
  | _ => none

/-- Model of `ReceiptDatabase.parse_quantity`: extract the first `[\d.]+`
run and convert with `float`; `none` on falsy input, no numeric run, or a
run `float` rejects (that `ValueError` is caught in the source). -/
def parse_quantity (quantity_str : Option String) : Option ℚ :=
  match quantity_str with
  | none => none
  | some s =>
    if s = "" then none
    else
      match firstNumRun s.data with
      | some run => pyFloatRun run
      | none => none

/-- Model of `ReceiptDatabase.parse_price`: extract the first `[\d.]+` run
and convert with `float`; `none` on falsy input, no numeric run, or a run
`float` rejects (that `ValueError` is caught in the source). -/
def parse_price (price_str : Option String) : Option ℚ :=
  match price_str with
  | none => none
  | some s =>
    if s = "" then none
    else
      match firstNumRun s.data with
      | some run => pyFloatRun run
      | none => none

/-- The specification text of `parseDate` (spec §4.1), written as a literal
cascade: try month-day-year (4-digit year), then month-day-year (2-digit
year), then year-month-day, then day-month-year, each hyphen-separated;
return the first successful match in canonical year-month-day form; absent
when the input is empty or matches none. -/
def parseDateSpec (raw : Option String) : Option String :=
  match raw with
  | none => none
  | some s =>
    if s = "" then none
    else
      match tryFormat .mdY (pyStrip s.data) with
      | some ymd => some (renderISO ymd)
      | none =>
        match tryFormat .mdy (pyStrip s.data) with
        | some ymd => some (renderISO ymd)
        | none =>
          match tryFormat .Ymd (pyStrip s.data) with
          | some ymd => some (renderISO ymd)
          | none =>
            match tryFormat .dmY (pyStrip s.data) with
            | some ymd => some (renderISO ymd)
            | none => none

/-- A row of `merchant(merchant_id, merchant_name UNIQUE, address, phone_number)`. -/
structure MerchantRow where
  merchant_id : Nat
  merchant_name : String
  address : Option String
  phone_number : Option String
deriving DecidableEq, Repr

/-- A row of `product(product_id, product_description UNIQUE, category)`. -/
structure ProductRow where
  product_id : Nat
  product_description : String
  category : Option String
deriving DecidableEq, Repr

/-- A row of `receipt(receipt_id, merchant_id FK, transaction_date, subtotal, tax, total)`. -/
structure ReceiptRow where
  receipt_id : Nat
  merchant_id : Nat
  transaction_date : String
  subtotal : Option ℚ
  tax : Option ℚ
  total : ℚ
deriving DecidableEq, Repr

/-- A row of `receipt_item(receipt_item_id, receipt_id FK, product_id FK, quantity,
unit_price, total_price)`; the generated `receipt_item_id` is never read back
by the source, so it is omitted. -/
structure ReceiptItemRow where
  receipt_id : Nat
  product_id : Nat
  quantity : ℚ
  unit_price : Option ℚ
  total_price : ℚ
deriving DecidableEq, Repr

/-- The store state: the four relations plus the generated-id sequences. -/
structure DB where
  merchants : List MerchantRow
  products : List ProductRow
  receipts : List ReceiptRow
  receipt_items : List ReceiptItemRow
  nextMerchantId : Nat
  nextProductId : Nat
  nextReceiptId : Nat
deriving DecidableEq, Repr

/-- The empty store. -/
def DB.empty : DB := ⟨[], [], [], [], 1, 1, 1⟩

/-- One raw line item as produced by the extraction source
(`item.get(...)` on the keys used in `insert_receipt`). -/
structure RawItem where
  Description : Option String
  Quantity : Option String
  Price : Option String
  TotalPrice : Option String
deriving DecidableEq, Repr

/-- One raw receipt map as consumed by `insert_receipt`. -/
structure RawReceipt where
  merchant : Option String
  date : Option String
  items : List RawItem
  subtotal : Option String
  tax : Option String
  total : Option String
deriving DecidableEq, Repr

/-- The error oracle: `err k = true` means the `k`-th `cur.execute` of this
ingestion call raises `psycopg2.Error`.  `noErr` injects no failure. -/
def noErr : Nat → Bool := fun _ => false

/-- Model of `ReceiptDatabase.insert_or_get_merchant`: falsy name returns
`None` with no storage access; otherwise `SELECT` by exact name (a caught
storage error yields `None`), returning the found id, else
`INSERT ... RETURNING merchant_id` (a caught storage error yields `None`).
Returns the resolved id, the store state, and the next operation index. -/
def insert_or_get_merchant (err : Nat → Bool) (k : Nat) (db : DB)
    (merchant_name : Option String) (address phone : Option String) :
    Option Nat × DB × Nat :=
  if ¬ strTruthy merchant_name then (none, db, k)
  else
    let name := merchant_name.getD ""
    if err k then (none, db, k + 1)
    else
      match db.merchants.find? (fun r => r.merchant_name == name) with
      | some r => (some r.merchant_id, db, k + 1)
      | none =>
        if err (k + 1) then (none, db, k + 2)
        else
          let mid := db.nextMerchantId
          (some mid,
           { db with
              merchants := db.merchants ++ [⟨mid, name, address, phone⟩],
              nextMerchantId := db.nextMerchantId + 1 },
           k + 2)

/-- Model of `ReceiptDatabase.insert_or_get_product`: same get-or-create
pattern keyed on the exact product description. -/
def insert_or_get_product (err : Nat → Bool) (k : Nat) (db : DB)
    (product_description : Option String) (category : Option String) :
    Option Nat × DB × Nat :=
  if ¬ strTruthy product_description then (none, db, k)
  else
    let descr := product_description.getD ""
    if err k then (none, db, k + 1)
    else
      match db.products.find? (fun r => r.product_description == descr) with
      | some r => (some r.product_id, db, k + 1)
      | none =>
        if err (k + 1) then (none, db, k + 2)
        else
          let pid := db.nextProductId
          (some pid,
           { db with
              products := db.products ++ [⟨pid, descr, category⟩],
              nextProductId := db.nextProductId + 1 },
           k + 2)

/-- The `for item in items` loop of `insert_receipt` (lines 224-256): skip
an item with falsy `Description`; parse quantity, unit price, total price;
skip when `total_price` is falsy; derive `unit_price = total_price / quantity`
when `unit_price` is falsy and `quantity` truthy; default `quantity` to 1
when falsy; get-or-create the product (a caught storage error skips the
item); insert the `receipt_item` row (a storage error here propagates,
`Except.error` carrying the operation count). -/
def insertItems (err : Nat → Bool) (receipt_id : Nat) :
    Nat → DB → List RawItem → Except Nat (DB × Nat)
  | k, db, [] => .ok (db, k)
  | k, db, item :: rest =>
    if ¬ strTruthy item.Description then insertItems err receipt_id k db rest
    else
      let description := item.Description.getD ""
      let quantity := parse_quantity item.Quantity
      let unit_price := parse_price item.Price
      let total_price := parse_price item.TotalPrice
      if ¬ qTruthy total_price then insertItems err receipt_id k db rest
      else
        let tp := total_price.getD 0
        let unit_price :=
          if ¬ qTruthy unit_price ∧ qTruthy quantity
          then some (ratDiv tp (quantity.getD 1)) else unit_price
        let quantity := if ¬ qTruthy quantity then some 1 else quantity
        match insert_or_get_product err k db (some description) none with
        | (none, db1, k1) => insertItems err receipt_id k1 db1 rest
        | (some product_id, db1, k1) =>
          if err k1 then .error (k1 + 1)
          else
            insertItems err receipt_id (k1 + 1)
              { db1 with
                  receipt_items := db1.receipt_items ++
                    [⟨receipt_id, product_id, quantity.getD 1, unit_price, tp⟩] }
              rest

/-- Model of `ReceiptDatabase.insert_receipt`: parse the header fields;
validate merchant name, date and total (any failure returns `False` before
any storage operation); resolve the merchant (failure returns `False`);
insert the `receipt` header row; insert the items; commit.  A storage error
at the header insert or an item insert rolls the whole transaction back to
the state at the start of the call and returns `False`.  Returns the final
store, the accepted flag, and the number of storage operations executed. -/
def insert_receipt (err : Nat → Bool) (db : DB) (receipt_data : RawReceipt) :
    DB × Bool × Nat :=
  let merchant_name := receipt_data.merchant
  let transaction_date := parse_date receipt_data.date
  let subtotal := parse_price receipt_data.subtotal
  let tax := parse_price receipt_data.tax
  let total := parse_price receipt_data.total
  let items := receipt_data.items
  if ¬ strTruthy merchant_name then (db, false, 0)
  else if ¬ strTruthy transaction_date then (db, false, 0)
  else if ¬ qTruthy total then (db, false, 0)
  else
    match insert_or_get_merchant err 0 db merchant_name none none with
    | (none, db1, k1) => (db1, false, k1)
    | (some merchant_id, db1, k1) =>
      if err k1 then (db, false, k1 + 1)
      else
        let receipt_id := db1.nextReceiptId
        let db2 := { db1 with
          receipts := db1.receipts ++
            [⟨receipt_id, merchant_id, transaction_date.getD "", subtotal, tax,
              total.getD 0⟩],
          nextReceiptId := db1.nextReceiptId + 1 }
        if items.isEmpty then (db2, true, k1 + 1)
        else
          match insertItems err receipt_id (k1 + 1) db2 items with
          | .error kf => (db, false, kf)
          | .ok (db3, k3) => (db3, true, k3)

/-! ## Bridge and helper lemmas -/

theorem ratDiv_eq (a b : ℚ) : ratDiv a b = a / b := by
  rw [ratDiv, Rat.div_def']

theorem strTruthy_getD_ne (o : Option String) (h : strTruthy o = true) :
    o.getD "" ≠ "" := by
  cases o with
  | none => simp [strTruthy] at h
  | some s => simpa [strTruthy] using h

theorem qTruthy_some_of_ne (q : ℚ) (h : q ≠ 0) : qTruthy (some q) = true := by
  simp [qTruthy, h]

theorem insert_or_get_merchant_none_state (err : Nat → Bool) (k : Nat) (db : DB)
    (n a p : Option String)
    (h : (insert_or_get_merchant err k db n a p).1 = none) :
    (insert_or_get_merchant err k db n a p).2.1 = db := by
  unfold insert_or_get_merchant at h ⊢
  by_cases h1 : strTruthy n
  · simp only [h1, not_true_eq_false, if_false] at h ⊢
    by_cases h2 : err k
    · simp [h2]
    · simp only [h2, Bool.false_eq_true, if_false] at h ⊢
      cases hf : db.merchants.find? (fun r => r.merchant_name == n.getD "") with
      | some r => simp [hf] at h
      | none =>
        simp only [hf] at h ⊢
        by_cases h3 : err (k + 1)
        · simp [h3]
        · simp [h3] at h
  · simp [h1]

theorem insert_or_get_merchant_frame (err : Nat → Bool) (k : Nat) (db : DB)
    (n a p : Option String) :
    (insert_or_get_merchant err k db n a p).2.1.products = db.products ∧
    (insert_or_get_merchant err k db n a p).2.1.receipts = db.receipts ∧
    (insert_or_get_merchant err k db n a p).2.1.receipt_items = db.receipt_items ∧
    (insert_or_get_merchant err k db n a p).2.1.nextProductId = db.nextProductId ∧
    (insert_or_get_merchant err k db n a p).2.1.nextReceiptId = db.nextReceiptId := by
  unfold insert_or_get_merchant
  by_cases h1 : strTruthy n
  · simp only [h1, not_true_eq_false, if_false]
    by_cases h2 : err k
    · simp [h2]
    · simp only [h2, Bool.false_eq_true, if_false]
      cases hf : db.merchants.find? (fun r => r.merchant_name == n.getD "") with
      | some r => simp [hf]
      | none =>
        simp only [hf]
        by_cases h3 : err (k + 1)
        · simp [h3]
        · simp [h3]
  · simp [h1]

theorem insert_or_get_merchant_noErr_some (k : Nat) (db : DB)
    (n a p : Option String) (h : strTruthy n = true) :
    ∃ mid db1 k1,
      insert_or_get_merchant noErr k db n a p = (some mid, db1, k1) := by
  unfold insert_or_get_merchant
  simp only [h, not_true_eq_false, if_false, noErr, Bool.false_eq_true, if_false]
  cases hf : db.merchants.find? (fun r => r.merchant_name == n.getD "") with
  | some r => exact ⟨r.merchant_id, db, k + 1, by simp [hf]⟩
  | none =>
    exact ⟨db.nextMerchantId,
      { db with
          merchants := db.merchants ++ [⟨db.nextMerchantId, n.getD "", a, p⟩],
          nextMerchantId := db.nextMerchantId + 1 }, k + 2, by simp [hf]⟩

/-- Under the error-free oracle, product resolution with a non-empty
description reduces to the pure get-or-create on the product table. -/
theorem insert_or_get_product_noErr_eq (k : Nat) (db : DB) (d : String)
    (cat : Option String) (hd : d ≠ "") :
    insert_or_get_product noErr k db (some d) cat =
      match db.products.find? (fun r => r.product_description == d) with
      | some r => (some r.product_id, db, k + 1)
      | none =>
        (some db.nextProductId,
         { db with
            products := db.products ++ [⟨db.nextProductId, d, cat⟩],
            nextProductId := db.nextProductId + 1 }, k + 2) := by
  unfold insert_or_get_product
  cases hf : db.products.find? (fun r => r.product_description == d) <;>
    simp [strTruthy, hd, noErr, hf]

/-- One pass of the item loop over a single line item whose description is
non-empty and whose total price parses truthy, under the error-free oracle:
exactly one `receipt_item` row is appended, with the quantity default and
the unit-price derivation as in the source. -/
theorem insertItems_single_good (rid k : Nat) (db : DB) (desc : String)
    (qs ps ts : Option String) (t : ℚ)
    (hd : desc ≠ "") (ht : parse_price ts = some t) (ht0 : t ≠ 0) :
    ∃ pid db' k',
      insertItems noErr rid k db [⟨some desc, qs, ps, ts⟩] = .ok (db', k') ∧
      db'.receipt_items = db.receipt_items ++
        [⟨rid, pid,
          (if ¬ qTruthy (parse_quantity qs) = true then some (1 : ℚ)
           else parse_quantity qs).getD 1,
          (if ¬ qTruthy (parse_price ps) = true ∧ qTruthy (parse_quantity qs) = true
           then some (ratDiv t ((parse_quantity qs).getD 1))
           else parse_price ps), t⟩] ∧
      db'.receipts = db.receipts := by
  unfold insertItems
  simp only [strTruthy, hd, decide_not, Option.getD_some, ht,
    qTruthy_some_of_ne t ht0, not_true_eq_false, if_false, Bool.not_false,
    if_true, Option.getD_some]
  rw [insert_or_get_product_noErr_eq k db desc none hd]
  cases hf : db.products.find? (fun r => r.product_description == desc) with
  | some r =>
    refine ⟨r.product_id,
      { db with receipt_items := db.receipt_items ++ [_] }, k + 2, ?_, rfl, rfl⟩
    simp [hf, noErr, insertItems]
  | none =>
    refine ⟨db.nextProductId,
      { db with
          products := db.products ++ [⟨db.nextProductId, desc, none⟩],
          nextProductId := db.nextProductId + 1,
          receipt_items := db.receipt_items ++ [_] }, k + 3, ?_, rfl, rfl⟩
    simp [hf, noErr, insertItems]

/-- The item loop never raises under the error-free oracle. -/
theorem insertItems_noErr_ok (rid : Nat) :
    ∀ (items : List RawItem) (k : Nat) (db : DB),
      ∃ db' k', insertItems noErr rid k db items = .ok (db', k') := by
  intro items
  induction items with
  | nil => exact fun k db => ⟨db, k, rfl⟩
  | cons item rest ih =>
    intro k db
    unfold insertItems
    by_cases hdsc : strTruthy item.Description
    · by_cases htp : qTruthy (parse_price item.TotalPrice)
      · simp only [hdsc, htp, not_true_eq_false, if_false]
        rw [insert_or_get_product_noErr_eq k db (item.Description.getD "") none
          (strTruthy_getD_ne item.Description hdsc)]
        cases hf : db.products.find?
            (fun r => r.product_description == item.Description.getD "") with
        | some r => simpa [hf, noErr] using ih (k + 2) _
        | none => simpa [hf, noErr] using ih (k + 3) _
      · simpa [hdsc, htp] using ih k db
    · simpa [hdsc] using ih k db

/-! ## Claim theorems: the field parsers (C5, C8, C9, C10) -/

/-- C10: `parse_price` and `parse_quantity` compute the identical function:
both perform the same first-numeric-run extraction, with no price-specific
handling beyond it. -/
theorem parse_price_eq_parse_quantity :
    ∀ x : Option String, parse_price x = parse_quantity x := by
  intro x
  cases x <;> rfl

/-- C5: `parse_date` tries exactly the four hyphen-separated formats in the
fixed order month-day-year (4-digit year), month-day-year (2-digit year),
year-month-day, day-month-year, returning the first successful parse in
canonical year-month-day form, and absent for empty or unmatched input
(the cascade `parseDateSpec`); in particular `"06-28-2014"`, `"6-28-14"`,
`"2014-06-28"` and `"28-06-2014"` all yield `"2014-06-28"`, and `"N/A"`
yields absent. -/
theorem parse_date_format_order :
    (∀ x : Option String, parse_date x = parseDateSpec x) ∧
    parse_date (some "06-28-2014") = some "2014-06-28" ∧
    parse_date (some "6-28-14") = some "2014-06-28" ∧
    parse_date (some "2014-06-28") = some "2014-06-28" ∧
    parse_date (some "28-06-2014") = some "2014-06-28" ∧
    parse_date (some "N/A") = none ∧
    parse_date (some "") = none := by
  refine ⟨?_, by decide, by decide, by decide, by decide, by decide, by decide⟩
  intro x
  cases x with
  | none => rfl
  | some s =>
    by_cases hs : s = ""
    · simp [parse_date, parseDateSpec, hs]
    · simp only [parse_date, parseDateSpec, hs, if_neg, if_false,
        List.findSome?_cons]
      cases h1 : tryFormat .mdY (pyStrip s.data) with
      | some ymd => simp
      | none =>
        cases h2 : tryFormat .mdy (pyStrip s.data) with
        | some ymd => simp
        | none =>
          cases h3 : tryFormat .Ymd (pyStrip s.data) with
          | some ymd => simp
          | none =>
            cases h4 : tryFormat .dmY (pyStrip s.data) with
            | some ymd => simp [List.findSome?]
            | none => simp [List.findSome?]

/-- C8: `parse_quantity` and `parse_price` extract the first contiguous
digit-and-decimal-point run, tolerating unit suffixes and currency symbols,
and return absent on empty or missing input:
`parse_quantity "3EA" = 3`, `parse_quantity "0.41 lb" = 0.41`,
`parse_quantity "" = absent`, `parse_price "$1.29" = 1.29`,
`parse_price "0.29/EA" = 0.29`, `parse_price None = absent`. -/
theorem parse_numeric_run_examples :
    parse_quantity (some "3EA") = some 3 ∧
    parse_quantity (some "0.41 lb") = some (41 / 100) ∧
    parse_quantity (some "") = none ∧
    parse_price (some "$1.29") = some (129 / 100) ∧
    parse_price (some "0.29/EA") = some (29 / 100) ∧
    parse_price none = none := by
  refine ⟨by decide, ?_, by decide, ?_, ?_, by decide⟩
  · have h : parse_quantity (some "0.41 lb") = some (mkRat 41 100) := by decide
    rw [h, Rat.mkRat_eq_div]; norm_num
  · have h : parse_price (some "$1.29") = some (mkRat 129 100) := by decide
    rw [h, Rat.mkRat_eq_div]; norm_num
  · have h : parse_price (some "0.29/EA") = some (mkRat 29 100) := by decide
    rw [h, Rat.mkRat_eq_div]; norm_num

/-- C9: the three field parsers are total over their input domain — for
every input (missing value, empty string, or arbitrary garbage, including
strings such as `"..."` whose extracted digit-and-dot run is rejected by
`float`, a `ValueError` the source catches) each call returns either a
parsed value or absent. -/
theorem parsers_total :
    (∀ x : Option String, parse_date x = none ∨ ∃ d, parse_date x = some d) ∧
    (∀ x : Option String, parse_quantity x = none ∨ ∃ q, parse_quantity x = some q) ∧
    (∀ x : Option String, parse_price x = none ∨ ∃ q, parse_price x = some q) ∧
    parse_price (some "...") = none ∧
    parse_quantity (some ".") = none ∧
    parse_quantity (some "1.2.3") = none ∧
    parse_date (some "##-&&-!!") = none ∧
    parse_date none = none := by
  refine ⟨?_, ?_, ?_, by decide, by decide, by decide, by decide, by decide⟩
  · intro x
    cases h : parse_date x with
    | none => exact Or.inl rfl
    | some d => exact Or.inr ⟨d, rfl⟩
  · intro x
    cases h : parse_quantity x with
    | none => exact Or.inl rfl
    | some q => exact Or.inr ⟨q, rfl⟩
  · intro x
    cases h : parse_price x with
    | none => exact Or.inl rfl
    | some q => exact Or.inr ⟨q, rfl⟩

/-! ## Claim theorem: identity resolution (C4) -/

/-- C4: `insert_or_get_merchant` and `insert_or_get_product` are idempotent
get-or-creates on the exact-match natural key: from a state without the key,
the first call inserts exactly one row and returns its id, and a second call
with the identical string returns the same id without inserting a duplicate,
leaving exactly one row for that key. -/
theorem resolution_get_or_create_idempotent :
    ∀ (db : DB) (k k2 : Nat) (name descr : String)
      (addr ph addr2 ph2 cat cat2 : Option String),
      name ≠ "" → descr ≠ "" →
      (∀ r ∈ db.merchants, r.merchant_name ≠ name) →
      (∀ r ∈ db.products, r.product_description ≠ descr) →
      ((insert_or_get_merchant noErr k db (some name) addr ph).1 =
          some db.nextMerchantId ∧
       (insert_or_get_merchant noErr k db (some name) addr ph).2.1.merchants =
          db.merchants ++ [⟨db.nextMerchantId, name, addr, ph⟩] ∧
       (insert_or_get_merchant noErr k2
          (insert_or_get_merchant noErr k db (some name) addr ph).2.1
          (some name) addr2 ph2).1 = some db.nextMerchantId ∧
       (insert_or_get_merchant noErr k2
          (insert_or_get_merchant noErr k db (some name) addr ph).2.1
          (some name) addr2 ph2).2.1 =
          (insert_or_get_merchant noErr k db (some name) addr ph).2.1 ∧
       ((insert_or_get_merchant noErr k db (some name) addr ph).2.1.merchants.countP
          (fun r => r.merchant_name == name)) = 1) ∧
      ((insert_or_get_product noErr k db (some descr) cat).1 =
          some db.nextProductId ∧
       (insert_or_get_product noErr k db (some descr) cat).2.1.products =
          db.products ++ [⟨db.nextProductId, descr, cat⟩] ∧
       (insert_or_get_product noErr k2
          (insert_or_get_product noErr k db (some descr) cat).2.1
          (some descr) cat2).1 = some db.nextProductId ∧
       (insert_or_get_product noErr k2
          (insert_or_get_product noErr k db (some descr) cat).2.1
          (some descr) cat2).2.1 =
          (insert_or_get_product noErr k db (some descr) cat).2.1 ∧
       ((insert_or_get_product noErr k db (some descr) cat).2.1.products.countP
          (fun r => r.product_description == descr)) = 1) := by
  intro db k k2 name descr addr ph addr2 ph2 cat cat2 hname hdescr hm hp
  have hmfind : db.merchants.find? (fun r => r.merchant_name == name) = none := by
    rw [List.find?_eq_none]
    intro r hr
    simpa using hm r hr
  have hpfind : db.products.find? (fun r => r.product_description == descr) = none := by
    rw [List.find?_eq_none]
    intro r hr
    simpa using hp r hr
  have hmzero : db.merchants.countP (fun r => r.merchant_name == name) = 0 := by
    rw [List.countP_eq_zero]
    intro r hr
    simpa using hm r hr
  have hpzero : db.products.countP (fun r => r.product_description == descr) = 0 := by
    rw [List.countP_eq_zero]
    intro r hr
    simpa using hp r hr
  constructor
  · have h1 : insert_or_get_merchant noErr k db (some name) addr ph =
        (some db.nextMerchantId,
         { db with
            merchants := db.merchants ++ [⟨db.nextMerchantId, name, addr, ph⟩],
            nextMerchantId := db.nextMerchantId + 1 }, k + 2) := by
      unfold insert_or_get_merchant
      simp [strTruthy, hname, noErr, hmfind]
    rw [h1]
    refine ⟨rfl, rfl, ?_, ?_, ?_⟩
    · unfold insert_or_get_merchant
      simp [strTruthy, hname, noErr, List.find?_append, hmfind]
    · unfold insert_or_get_merchant
      simp [strTruthy, hname, noErr, List.find?_append, hmfind]
    · simp [List.countP_append, hmzero, List.countP_cons]
  · have h1 : insert_or_get_product noErr k db (some descr) cat =
        (some db.nextProductId,
         { db with
            products := db.products ++ [⟨db.nextProductId, descr, cat⟩],
            nextProductId := db.nextProductId + 1 }, k + 2) := by
      unfold insert_or_get_product
      simp [strTruthy, hdescr, noErr, hpfind]
    rw [h1]
    refine ⟨rfl, rfl, ?_, ?_, ?_⟩
    · unfold insert_or_get_product
      simp [strTruthy, hdescr, noErr, List.find?_append, hpfind]
    · unfold insert_or_get_product
      simp [strTruthy, hdescr, noErr, List.find?_append, hpfind]
    · simp [List.countP_append, hpzero, List.countP_cons]

theorem resolution_get_or_create_idempotent_witness :
    (((insert_or_get_merchant noErr 0 DB.empty (some "TRADER JOES") none none).1 =
        some 1 ∧
      (insert_or_get_merchant noErr 0 DB.empty
          (some "TRADER JOES") none none).2.1.merchants =
        [⟨1, "TRADER JOES", none, none⟩] ∧
      (insert_or_get_merchant noErr 0
          (insert_or_get_merchant noErr 0 DB.empty
            (some "TRADER JOES") none none).2.1
          (some "TRADER JOES") none none).1 = some 1 ∧
      (insert_or_get_merchant noErr 0
          (insert_or_get_merchant noErr 0 DB.empty
            (some "TRADER JOES") none none).2.1
          (some "TRADER JOES") none none).2.1 =
        (insert_or_get_merchant noErr 0 DB.empty
          (some "TRADER JOES") none none).2.1 ∧
      ((insert_or_get_merchant noErr 0 DB.empty
          (some "TRADER JOES") none none).2.1.merchants.countP
        (fun r => r.merchant_name == "TRADER JOES")) = 1) ∧
     ((insert_or_get_product noErr 0 DB.empty (some "MILK") none).1 = some 1 ∧
      (insert_or_get_product noErr 0 DB.empty (some "MILK") none).2.1.products =
        [⟨1, "MILK", none⟩] ∧
      (insert_or_get_product noErr 0
          (insert_or_get_product noErr 0 DB.empty (some "MILK") none).2.1
          (some "MILK") none).1 = some 1 ∧
      (insert_or_get_product noErr 0
          (insert_or_get_product noErr 0 DB.empty (some "MILK") none).2.1
          (some "MILK") none).2.1 =
        (insert_or_get_product noErr 0 DB.empty (some "MILK") none).2.1 ∧
      ((insert_or_get_product noErr 0 DB.empty (some "MILK") none).2.1.products.countP
        (fun r => r.product_description == "MILK")) = 1)) :=
  resolution_get_or_create_idempotent DB.empty 0 0 "TRADER JOES" "MILK"
    none none none none none none (by decide) (by decide) (by decide) (by decide)

/-! ## Claim theorems: ingestion (C1, C2) -/

/-- C2: a receipt whose merchant name is absent, whose date does not parse,
or whose total does not parse is rejected before any write: `insert_receipt`
returns `accepted = false`, the store is returned unchanged, and zero
storage operations are executed (no transaction is ever opened). -/
theorem ingest_validation_failure_no_write :
    ∀ (err : Nat → Bool) (db : DB) (rd : RawReceipt),
      (strTruthy rd.merchant = false ∨ parse_date rd.date = none ∨
        parse_price rd.total = none) →
      insert_receipt err db rd = (db, false, 0) := by
  intro err db rd h
  unfold insert_receipt
  by_cases h1 : strTruthy rd.merchant
  · by_cases h2 : strTruthy (parse_date rd.date)
    · rcases h with h | h | h
      · rw [h1] at h; cases h
      · rw [h] at h2; simp [strTruthy] at h2
      · have h3 : qTruthy (parse_price rd.total) = false := by
          rw [h]; rfl
        simp [h1, h2, h3]
    · simp [h1, h2]
  · simp [h1]

theorem ingest_validation_failure_no_write_witness :
    insert_receipt noErr DB.empty
      ⟨some "TRADER JOES", some "06-28-2014",
        [⟨some "BANANAS", none, none, some "0.99"⟩], none, none, none⟩
      = (DB.empty, false, 0) :=
  ingest_validation_failure_no_write noErr DB.empty
    ⟨some "TRADER JOES", some "06-28-2014",
      [⟨some "BANANAS", none, none, some "0.99"⟩], none, none, none⟩
    (Or.inr (Or.inr (by decide)))

/-- C1: whenever `insert_receipt` reports `accepted = false` — in
particular whenever a storage operation from the receipt-header insert
onward raises — the whole transaction is rolled back and the returned
store is exactly the input store, so no `receipt` or `receipt_item` row
from the failed call persists.  The closed conjunct runs a concrete
one-item ingestion whose item insert (operation 5) raises: the header
already inserted is discarded, no receipt row with zero items persists,
and the call returns `accepted = false`. -/
theorem ingest_storage_failure_rolls_back :
    (∀ (err : Nat → Bool) (db : DB) (rd : RawReceipt),
      (insert_receipt err db rd).2.1 = false →
      (insert_receipt err db rd).1 = db) ∧
    insert_receipt (fun k => k == 5) DB.empty
      ⟨some "TRADER JOES", some "06-28-2014",
        [⟨some "MILK", some "2", none, some "4.00"⟩], none, none, some "$38.68"⟩
      = (DB.empty, false, 6) := by
  constructor
  · intro err db rd h
    unfold insert_receipt at h ⊢
    by_cases h1 : strTruthy rd.merchant
    · by_cases h2 : strTruthy (parse_date rd.date)
      · by_cases h3 : qTruthy (parse_price rd.total)
        · simp only [h1, h2, h3, not_true_eq_false, if_false] at h ⊢
          rcases hE : insert_or_get_merchant err 0 db rd.merchant none none with
            ⟨res, db1, k1⟩
          have hdb1 := insert_or_get_merchant_none_state err 0 db rd.merchant none none
          rw [hE] at hdb1
          rw [hE] at h
          cases res with
          | none => exact hdb1 rfl
          | some mid =>
            by_cases h4 : err k1
            · simp [h4]
            · simp only [h4, Bool.false_eq_true, if_false] at h ⊢
              by_cases h5 : rd.items.isEmpty
              · simp [h5] at h
              · simp only [h5, if_false] at h ⊢
                cases hI : insertItems err db1.nextReceiptId (k1 + 1)
                    { db1 with
                        receipts := db1.receipts ++
                          [⟨db1.nextReceiptId, mid, (parse_date rd.date).getD "",
                            parse_price rd.subtotal, parse_price rd.tax,
                            (parse_price rd.total).getD 0⟩],
                        nextReceiptId := db1.nextReceiptId + 1 } rd.items with
                | error kf => simp [hI]
                | ok st =>
                  rw [hI] at h
                  simp at h
        · simp [h1, h2, h3]
      · simp [h1, h2]
    · simp [h1]
  · decide

theorem ingest_storage_failure_rolls_back_witness :
    (insert_receipt (fun k => k == 2) DB.empty
      ⟨some "TRADER JOES", some "06-28-2014", [], none, none, some "$38.68"⟩).1
      = DB.empty :=
  ingest_storage_failure_rolls_back.1 (fun k => k == 2) DB.empty
    ⟨some "TRADER JOES", some "06-28-2014", [], none, none, some "$38.68"⟩
    (by decide)

/-! ## Claim theorems: item normalization (C3, C6) -/

/-- C3: unit-price derivation runs before the quantity default and triggers
only when the parsed quantity is present and non-zero: with `unit_price`
absent and quantity `q ≠ 0`, the inserted row carries
`unit_price = total_price / q`; with quantity absent, the row carries
`quantity = 1` and `unit_price` stays absent.  Concretely, MILK
(quantity "2", total "4.00", no price) yields `unit_price = 2`, and
BANANAS (total "0.99", no quantity) yields `quantity = 1`, absent
`unit_price`, `total_price = 0.99`. -/
theorem item_unit_price_derivation_order :
    (∀ (rid k : Nat) (db : DB) (desc : String) (qs ps ts : Option String)
       (q t : ℚ),
       desc ≠ "" → parse_quantity qs = some q → q ≠ 0 →
       parse_price ps = none → parse_price ts = some t → t ≠ 0 →
       ∃ pid db' k',
         insertItems noErr rid k db [⟨some desc, qs, ps, ts⟩] = .ok (db', k') ∧
         db'.receipt_items = db.receipt_items ++ [⟨rid, pid, q, some (t / q), t⟩]) ∧
    (∀ (rid k : Nat) (db : DB) (desc : String) (qs ps ts : Option String)
       (t : ℚ),
       desc ≠ "" → parse_quantity qs = none →
       parse_price ps = none → parse_price ts = some t → t ≠ 0 →
       ∃ pid db' k',
         insertItems noErr rid k db [⟨some desc, qs, ps, ts⟩] = .ok (db', k') ∧
         db'.receipt_items = db.receipt_items ++ [⟨rid, pid, 1, none, t⟩]) ∧
    (insert_receipt noErr DB.empty
      ⟨some "TRADER JOES", some "06-28-2014",
        [⟨some "MILK", some "2", none, some "4.00"⟩],
        none, none, some "$38.68"⟩).1.receipt_items =
      [⟨1, 1, 2, some 2, 4⟩] ∧
    (insert_receipt noErr DB.empty
      ⟨some "TRADER JOES", some "06-28-2014",
        [⟨some "BANANAS", none, none, some "0.99"⟩],
        none, none, some "$38.68"⟩).1.receipt_items =
      [⟨1, 1, 1, none, 99 / 100⟩] := by
  refine ⟨?_, ?_, by decide, ?_⟩
  · intro rid k db desc qs ps ts q t hd hq hq0 hps ht ht0
    obtain ⟨pid, db', k', hrun, hitems, _⟩ :=
      insertItems_single_good rid k db desc qs ps ts t hd ht ht0
    refine ⟨pid, db', k', hrun, ?_⟩
    rw [hitems, hq, hps]
    simp [qTruthy_some_of_ne q hq0, qTruthy, ratDiv_eq, hq0]
  · intro rid k db desc qs ps ts t hd hq hps ht ht0
    obtain ⟨pid, db', k', hrun, hitems, _⟩ :=
      insertItems_single_good rid k db desc qs ps ts t hd ht ht0
    refine ⟨pid, db', k', hrun, ?_⟩
    rw [hitems, hq, hps]
    simp [qTruthy]
  · have h : (insert_receipt noErr DB.empty
        ⟨some "TRADER JOES", some "06-28-2014",
          [⟨some "BANANAS", none, none, some "0.99"⟩],
          none, none, some "$38.68"⟩).1.receipt_items =
        [⟨1, 1, 1, none, mkRat 99 100⟩] := by decide
    rw [h]
    norm_num [Rat.mkRat_eq_div]

theorem item_unit_price_derivation_order_witness :
    ∃ pid db' k',
      insertItems noErr 1 0 DB.empty
        [⟨some "MILK", some "2", none, some "4.00"⟩] = .ok (db', k') ∧
      db'.receipt_items = DB.empty.receipt_items ++
        [⟨1, pid, 2, some ((4 : ℚ) / 2), 4⟩] :=
  item_unit_price_derivation_order.1 1 0 DB.empty "MILK"
    (some "2") none (some "4.00") 2 4
    (by decide) (by decide) (by decide) (by decide) (by decide) (by decide)

/-- C6: a parsed numeric value of exactly 0 is treated like an absent field
at every decision point of `insert_receipt`: a total parsing to 0 rejects
the receipt with nothing written; an item total price of 0 is silently
skipped; an item unit price of 0 is overwritten by `total_price / quantity`
when the quantity is present and non-zero; and an item quantity of 0 takes
the default `quantity = 1` with no unit-price derivation. -/
theorem zero_value_treated_as_absent :
    (∀ (err : Nat → Bool) (db : DB) (rd : RawReceipt),
       strTruthy rd.merchant = true → strTruthy (parse_date rd.date) = true →
       parse_price rd.total = some 0 →
       insert_receipt err db rd = (db, false, 0)) ∧
    (∀ (err : Nat → Bool) (rid k : Nat) (db : DB) (item : RawItem)
       (rest : List RawItem),
       parse_price item.TotalPrice = some 0 →
       insertItems err rid k db (item :: rest) = insertItems err rid k db rest) ∧
    (∀ (rid k : Nat) (db : DB) (desc : String) (qs ps ts : Option String)
       (q t : ℚ),
       desc ≠ "" → parse_quantity qs = some q → q ≠ 0 →
       parse_price ps = some 0 → parse_price ts = some t → t ≠ 0 →
       ∃ pid db' k',
         insertItems noErr rid k db [⟨some desc, qs, ps, ts⟩] = .ok (db', k') ∧
         db'.receipt_items = db.receipt_items ++ [⟨rid, pid, q, some (t / q), t⟩]) ∧
    (∀ (rid k : Nat) (db : DB) (desc : String) (qs ps ts : Option String)
       (t : ℚ),
       desc ≠ "" → parse_quantity qs = some 0 →
       parse_price ts = some t → t ≠ 0 →
       ∃ pid db' k',
         insertItems noErr rid k db [⟨some desc, qs, ps, ts⟩] = .ok (db', k') ∧
         db'.receipt_items = db.receipt_items ++
           [⟨rid, pid, 1, parse_price ps, t⟩]) := by
  refine ⟨?_, ?_, ?_, ?_⟩
  · intro err db rd h1 h2 h3
    have h4 : qTruthy (parse_price rd.total) = false := by
      rw [h3]; simp [qTruthy]
    unfold insert_receipt
    simp [h1, h2, h4]
  · intro err rid k db item rest h
    simp only [insertItems]
    by_cases hdsc : strTruthy item.Description
    · simp [hdsc, h, qTruthy]
    · simp [hdsc]
  · intro rid k db desc qs ps ts q t hd hq hq0 hps ht ht0
    obtain ⟨pid, db', k', hrun, hitems, _⟩ :=
      insertItems_single_good rid k db desc qs ps ts t hd ht ht0
    refine ⟨pid, db', k', hrun, ?_⟩
    rw [hitems, hq, hps]
    simp [qTruthy_some_of_ne q hq0, qTruthy, ratDiv_eq, hq0]
  · intro rid k db desc qs ps ts t hd hq ht ht0
    obtain ⟨pid, db', k', hrun, hitems, _⟩ :=
      insertItems_single_good rid k db desc qs ps ts t hd ht ht0
    refine ⟨pid, db', k', hrun, ?_⟩
    rw [hitems, hq]
    simp [qTruthy]

theorem zero_value_treated_as_absent_witness :
    insert_receipt noErr DB.empty
      ⟨some "TRADER JOES", some "06-28-2014",
        [⟨some "MILK", some "2", none, some "4.00"⟩], none, none, some "0.00"⟩
      = (DB.empty, false, 0) :=
  zero_value_treated_as_absent.1 noErr DB.empty
    ⟨some "TRADER JOES", some "06-28-2014",
      [⟨some "MILK", some "2", none, some "4.00"⟩], none, none, some "0.00"⟩
    (by decide) (by decide) (by decide)

/-! ## Claim theorem: per-item outcomes never abort an accepted receipt (C7) -/

/-- C7: once header validation and merchant resolution succeed and no
storage error is raised, `insert_receipt` returns `accepted = true`
regardless of per-item outcomes: an empty items list commits the header
alone; an item with a falsy description, an unparsable total price, or a
failed product resolution is silently skipped without aborting the receipt.
The closed conjunct runs a receipt with one bad-description item, one good
item, one unparsable-total item, and one item whose product resolution
raises (operation 6, caught inside the resolver): the receipt commits with
`accepted = true` and exactly the one good row. -/
theorem ingest_accepts_despite_item_outcomes :
    (∀ (db : DB) (rd : RawReceipt),
       strTruthy rd.merchant = true → strTruthy (parse_date rd.date) = true →
       qTruthy (parse_price rd.total) = true →
       (insert_receipt noErr db rd).2.1 = true) ∧
    (∀ (db : DB) (rd : RawReceipt),
       strTruthy rd.merchant = true → strTruthy (parse_date rd.date) = true →
       qTruthy (parse_price rd.total) = true → rd.items = [] →
       (insert_receipt noErr db rd).2.1 = true ∧
       (insert_receipt noErr db rd).1.receipt_items = db.receipt_items ∧
       (insert_receipt noErr db rd).1.receipts.length = db.receipts.length + 1) ∧
    (∀ (err : Nat → Bool) (rid k : Nat) (db : DB) (item : RawItem)
       (rest : List RawItem),
       strTruthy item.Description = false →
       insertItems err rid k db (item :: rest) = insertItems err rid k db rest) ∧
    (∀ (err : Nat → Bool) (rid k : Nat) (db : DB) (item : RawItem)
       (rest : List RawItem),
       parse_price item.TotalPrice = none →
       insertItems err rid k db (item :: rest) = insertItems err rid k db rest) ∧
    (∀ (err : Nat → Bool) (rid k : Nat) (db : DB) (item : RawItem)
       (rest : List RawItem),
       strTruthy item.Description = true →
       qTruthy (parse_price item.TotalPrice) = true →
       (insert_or_get_product err k db (some (item.Description.getD "")) none).1
         = none →
       insertItems err rid k db (item :: rest) =
         insertItems err rid
           (insert_or_get_product err k db
             (some (item.Description.getD "")) none).2.2
           (insert_or_get_product err k db
             (some (item.Description.getD "")) none).2.1 rest) ∧
    insert_receipt (fun k => k == 6) DB.empty
      ⟨some "TRADER JOES", some "06-28-2014",
        [⟨none, some "1", none, some "1.00"⟩,
         ⟨some "MILK", some "2", none, some "4.00"⟩,
         ⟨some "EGGS", none, none, some "N/A"⟩,
         ⟨some "BREAD", none, none, some "2.50"⟩],
        none, none, some "$38.68"⟩
      = ({ merchants := [⟨1, "TRADER JOES", none, none⟩],
           products := [⟨1, "MILK", none⟩],
           receipts := [⟨1, 1, "2014-06-28", none, none, mkRat 3868 100⟩],
           receipt_items := [⟨1, 1, 2, some 2, 4⟩],
           nextMerchantId := 2, nextProductId := 2, nextReceiptId := 2 },
         true, 7) := by
  have haccept : ∀ (db : DB) (rd : RawReceipt),
      strTruthy rd.merchant = true → strTruthy (parse_date rd.date) = true →
      qTruthy (parse_price rd.total) = true →
      (insert_receipt noErr db rd).2.1 = true ∧
      (rd.items = [] →
        (insert_receipt noErr db rd).1.receipt_items = db.receipt_items ∧
        (insert_receipt noErr db rd).1.receipts.length = db.receipts.length + 1) := by
    intro db rd h1 h2 h3
    unfold insert_receipt
    simp only [h1, h2, h3, not_true_eq_false, if_false]
    obtain ⟨mid, db1, k1, hE⟩ :=
      insert_or_get_merchant_noErr_some 0 db rd.merchant none none h1
    have hframe := insert_or_get_merchant_frame noErr 0 db rd.merchant none none
    rw [hE] at hframe
    rw [hE]
    simp only [noErr, Bool.false_eq_true, if_false]
    by_cases h5 : rd.items.isEmpty
    · simp only [h5, if_true]
      refine ⟨by trivial, fun _ => ⟨hframe.2.2.1, ?_⟩⟩
      have hr : db1.receipts = db.receipts := hframe.2.1
      simp [hr]
    · have h5' : rd.items = [] → False := by
        intro hnil; rw [hnil] at h5; simp at h5
      obtain ⟨db', k', hI⟩ := insertItems_noErr_ok db1.nextReceiptId rd.items
        (k1 + 1)
        { db1 with
            receipts := db1.receipts ++
              [⟨db1.nextReceiptId, mid, (parse_date rd.date).getD "",
                parse_price rd.subtotal, parse_price rd.tax,
                (parse_price rd.total).getD 0⟩],
            nextReceiptId := db1.nextReceiptId + 1 }
      simp only [h5, if_false]
      rw [hI]
      exact ⟨rfl, fun hnil => absurd hnil (fun h => h5' h)⟩
  refine ⟨fun db rd h1 h2 h3 => (haccept db rd h1 h2 h3).1,
    fun db rd h1 h2 h3 h4 =>
      ⟨(haccept db rd h1 h2 h3).1, ((haccept db rd h1 h2 h3).2 h4).1,
        ((haccept db rd h1 h2 h3).2 h4).2⟩,
    ?_, ?_, ?_, by decide⟩
  · intro err rid k db item rest h
    simp only [insertItems]
    simp [h]
  · intro err rid k db item rest h
    simp only [insertItems]
    by_cases hdsc : strTruthy item.Description
    · simp [hdsc, h, qTruthy]
    · simp [hdsc]
  · intro err rid k db item rest hdsc htp hres
    simp only [insertItems]
    simp only [hdsc, htp, not_true_eq_false, if_false, Bool.not_true]
    rcases hP : insert_or_get_product err k db
        (some (item.Description.getD "")) none with ⟨pres, dbX, kX⟩
    rw [hP] at hres
    cases pres with
    | none => simp
    | some pid => simp at hres

theorem ingest_accepts_despite_item_outcomes_witness :
    (insert_receipt noErr DB.empty
      ⟨some "TRADER JOES", some "06-28-2014", [], none, none, some "$38.68"⟩).2.1
      = true :=
  ingest_accepts_despite_item_outcomes.1 DB.empty
    ⟨some "TRADER JOES", some "06-28-2014", [], none, none, some "$38.68"⟩
    (by decide) (by decide) (by decide)

end ProductTruck
